import Mathlib

/-!
Shallow embedding of the XRootD client stream state machine
(`src/XrdClStream.cc`, namespace `XrdClient`) and of the multi-stream
coordinator (`src/src/XrdClient/XrdClientMStream.cc`,
class `XrdClientMStream`).

Machine integers of the source (`time_t`, `int`, `int64_t`) are modelled as
`Int`; sizes and counters (`uint32_t`, list lengths) as `Nat`.  Heap pointers
used only for identity (`OutMessageHelper *` slots compared against
`pCurrentOut`) are modelled by a numeric slot id.  Side effects on external
collaborators (poller, task manager, handlers, incoming queue, transport) are
returned as an explicit effect list in the order the source performs them.
-/

namespace XrdClient

/-- Severity of a `Status` value (`stOK`, `stError`, `stFatal`). -/
inductive StatusKind where
  | stOK
  | stError
  | stFatal
deriving DecidableEq, Repr

/-- Status / error codes used by the stream code: the `suDone`, `suContinue`,
`suRetry` progress codes and the error codes appearing in
`src/XrdClStream.cc`.  `suDone` doubles as the default code of `Status()`. -/
inductive StatusCode where
  | suDone
  | suContinue
  | suRetry
  | errPollerError
  | errSocketOptError
  | errConnectionError
  | errSocketError
  | errSocketTimeout
  | errStreamDisconnect
deriving DecidableEq, Repr

/-- The `Status` value `{severity, code, errNo}` returned throughout the
stream code.  `Status()` in the source defaults to `(stOK, suDone, 0)`. -/
structure Status where
  kind : StatusKind
  code : StatusCode
  errNo : Int
deriving DecidableEq, Repr

/-- `Status()` — the default-constructed OK status. -/
def Status.ok : Status := ⟨StatusKind.stOK, StatusCode.suDone, 0⟩

/-- `Status::IsOK()` — the severity is `stOK`. -/
def Status.IsOK (st : Status) : Bool := st.kind = StatusKind.stOK

/-- `Status::IsFatal()` — the severity is `stFatal`. -/
def Status.IsFatal (st : Status) : Bool := st.kind = StatusKind.stFatal

/-- The stream status enumeration of `XrdClStream.hh`:
`{Disconnected, Connecting, Connected, Error}`. -/
inductive StreamStatus where
  | Disconnected
  | Connecting
  | Connected
  | Error
deriving DecidableEq, Repr

/-- One entry of `pOutQueue`: an `OutMessageHelper` holding a message, an
optional completion handler and the absolute expiration time.  The heap
address of the helper (compared against `pCurrentOut` in `Stream::Tick`) is
modelled by the numeric `id`; `hasHandler` models a non-null `handler`
pointer. -/
structure OutSlot where
  id : Nat
  hasHandler : Bool
  expires : Int
deriving DecidableEq, Repr

/-- Externally observable side effects of the stream operations, listed in
the order the source performs them: handler invocations, socket / poller
calls, forwarding to the shared incoming queue, task registration and the
transport notification. -/
inductive Effect where
  | handlerCalled (slotId : Nat) (st : Status)
  | pollerRemoved
  | socketClosed
  | incomingTimeout (now : Int)
  | incomingFailAll (st : Status)
  | taskScheduled (at_ : Int)
  | transportDisconnect
deriving DecidableEq, Repr

/-- The per-stream state of `XrdClient::Stream`: the fields of
`XrdClStream.hh` that the verified operations read or write.  Configuration
fields (`connectionRetry`, `connectionWindow`, `streamErrorWindow`) are
snapshotted at construction in the source and are plain fields here. -/
structure Stream where
  streamNum : Nat
  streamStatus : StreamStatus
  outQueue : List OutSlot
  currentOut : Option Nat
  connectionCount : Nat
  connectionRetry : Nat
  connectionWindow : Int
  connectionInitTime : Int
  streamErrorWindow : Int
  errorTime : Int
  lastStreamError : StatusCode
deriving DecidableEq, Repr

/-- `Stream::Connect` (success path): stamps `pConnectionInitTime = now`,
increments `pConnectionCount`, and — the socket `Initialize` / `Connect`
calls and the poller registration succeeding — leaves the stream in status
`Connecting`.  The failure branches of the socket calls (which set status
`Error`) are not needed by the verified claims and are not modelled. -/
def Connect (now : Int) (s : Stream) : Stream :=
  { s with connectionInitTime := now
           connectionCount := s.connectionCount + 1
           streamStatus := StreamStatus.Connecting }

/-- Result of `Stream::CheckConnection`: enqueue allowed (`Status()`),
rejected with `Status(stError)`, or a `Connect()` attempt made. -/
inductive CheckOutcome where
  | ok
  | errorRejected
  | connects
deriving DecidableEq, Repr

/-- `Stream::CheckConnection` at time `now`:
returns `Status()` when the status is `Connected` or `Connecting`;
returns `Status(stError)` when the status is `Error` and
`now - pErrorTime > pStreamErrorWindow`; otherwise calls `Connect()`. -/
def CheckConnection (now : Int) (s : Stream) : CheckOutcome × Stream :=
  if s.streamStatus = StreamStatus.Connected ∨
     s.streamStatus = StreamStatus.Connecting then
    (CheckOutcome.ok, s)
  else if s.streamStatus = StreamStatus.Error ∧
          now - s.errorTime > s.streamErrorWindow then
    (CheckOutcome.errorRejected, s)
  else
    (CheckOutcome.connects, Connect now s)

/-- `Stream::FailOutgoingHandlers`: invokes the handler (when non-null) of
every slot of `pOutQueue` with the given status and clears the queue. -/
def FailOutgoingHandlers (st : Status) (s : Stream) : Stream × List Effect :=
  ({ s with outQueue := [] },
   s.outQueue.filterMap fun sl =>
     if sl.hasHandler then some (Effect.handlerCalled sl.id st) else none)

/-- `Stream::HandleStreamFault`: removes the socket from the poller, closes
it, drops `pCurrentOut`, discards the partial inbound message and notifies
the transport.  Then, when the status is non-fatal and
`pConnectionCount < pConnectionRetry`, sets status `Connecting` and either
calls `Connect()` immediately (when `pConnectionInitTime + pConnectionWindow`
has passed) or registers a one-shot task at that time.  Otherwise sets status
`Error`, stamps `pLastStreamError` and `pErrorTime`, fails the incoming
handlers (stream 0 only) and all outgoing handlers with the fault status. -/
def HandleStreamFault (now : Int) (st : Status) (s : Stream) :
    Stream × List Effect :=
  let s0 := { s with currentOut := none }
  let pre := [Effect.pollerRemoved, Effect.socketClosed,
              Effect.transportDisconnect]
  if ¬st.IsFatal ∧ s0.connectionCount < s0.connectionRetry then
    let s1 := { s0 with streamStatus := StreamStatus.Connecting }
    let newConnectTime := s1.connectionInitTime + s1.connectionWindow
    if newConnectTime - now ≤ 0 then
      (Connect now s1, pre)
    else
      (s1, pre ++ [Effect.taskScheduled newConnectTime])
  else
    let s2 := { s0 with streamStatus := StreamStatus.Error
                        lastStreamError := st.code
                        errorTime := now }
    let e1 := if s.streamNum = 0 then [Effect.incomingFailAll st] else []
    let (s3, e2) := FailOutgoingHandlers st s2
    (s3, pre ++ e1 ++ e2)

/-- The status `Status( stError, errSocketTimeout )` used by `Stream::Tick`. -/
def timeoutStatus : Status :=
  ⟨StatusKind.stError, StatusCode.errSocketTimeout, 0⟩

/-- The status `Status( stError, errStreamDisconnect )` used by
`Stream::Disconnect`. -/
def disconnectStatus : Status :=
  ⟨StatusKind.stError, StatusCode.errStreamDisconnect, 0⟩

/-- The aging loop of `Stream::Tick` over `pOutQueue`: a slot that is not
`pCurrentOut` and whose `expires ≤ now` has its handler (when non-null)
invoked with `Status( stError, errSocketTimeout )` and is erased; every
other slot is kept. -/
def tickOutQueue (now : Int) (currentOut : Option Nat) :
    List OutSlot → List OutSlot × List Effect
  | [] => ([], [])
  | sl :: rest =>
    let (q, effs) := tickOutQueue now currentOut rest
    if some sl.id ≠ currentOut ∧ sl.expires ≤ now then
      (q, (if sl.hasHandler then [Effect.handlerCalled sl.id timeoutStatus]
           else []) ++ effs)
    else
      (sl :: q, effs)

/-- `Stream::Tick(now)`: on stream 0 first forwards `now` to the incoming
dispatch queue (`pIncomingQueue->TimeoutHandlers(now)`), then ages the
outbound queue with `tickOutQueue`. -/
def Tick (now : Int) (s : Stream) : Stream × List Effect :=
  let pre := if s.streamNum = 0 then [Effect.incomingTimeout now] else []
  let (q, effs) := tickOutQueue now s.currentOut s.outQueue
  ({ s with outQueue := q }, pre ++ effs)

/-- `Stream::Disconnect(force)`: when `force` is false and `pOutQueue` is
non-empty the disconnection is cancelled with no effect.  Otherwise the
socket is removed from the poller and closed, the incoming handlers are
failed with `errStreamDisconnect` (stream 0 only), all outgoing handlers are
failed with the same status, the status becomes `Disconnected` and the
transport is notified. -/
def Disconnect (force : Bool) (s : Stream) : Stream × List Effect :=
  if ¬force ∧ ¬s.outQueue.isEmpty then
    (s, [])
  else
    let pre := [Effect.pollerRemoved, Effect.socketClosed]
    let e1 := if s.streamNum = 0 then [Effect.incomingFailAll disconnectStatus]
              else []
    let (s1, e2) := FailOutgoingHandlers disconnectStatus s
    ({ s1 with streamStatus := StreamStatus.Disconnected },
     pre ++ e1 ++ e2 ++ [Effect.transportDisconnect])

/-- The message buffer of `XrdClMessage.hh` as `Stream::WriteMessage` sees
it: a size and a cursor (`GetSize`, `GetCursor`, `SetCursor`,
`AdvanceCursor`).  The byte contents play no role in the verified claims. -/
structure Msg where
  size : Nat
  cursor : Nat
deriving DecidableEq, Repr

/-- One return of the raw `::write` call inside `Stream::WriteMessage`:
either `status > 0` bytes were written, or `status ≤ 0` with `errno` equal
to `EAGAIN`/`EWOULDBLOCK`, or `status ≤ 0` with another `errno`. -/
inductive WriteRes where
  | wrote (k : Nat)
  | eagain
  | errorCode (e : Int)
deriving DecidableEq, Repr

/-- How the write loop of `Stream::WriteMessage` ends:
`completed` — `leftToBeWritten` reached 0 and the function proceeds to the
completion code; `returned st` — an early `return st` was taken;
`starved` — the modelled event list ran out while the loop would continue
(a modelling artifact, never reached by the verified statements'
witnesses). -/
inductive LoopExit where
  | completed
  | returned (st : Status)
  | starved
deriving DecidableEq, Repr

/-- The write loop of `Stream::WriteMessage`: with `leftToBeWritten` bytes
still to send it repeatedly consumes one raw-write result.
`wrote k` advances the cursor by `k` and decreases `leftToBeWritten` by `k`;
`eagain` returns `Status( stOK, suContinue )` leaving the cursor in place;
`errorCode e` resets the cursor to 0 and returns
`Status( stError, errSocketError, e )`. -/
def writeLoop : List WriteRes → Msg → Nat → Msg × Nat × LoopExit
  | [], msg, left =>
    if left = 0 then (msg, left, LoopExit.completed)
    else (msg, left, LoopExit.starved)
  | ev :: rest, msg, left =>
    if left = 0 then (msg, left, LoopExit.completed)
    else
      match ev with
      | WriteRes.wrote k =>
          writeLoop rest { msg with cursor := msg.cursor + k } (left - k)
      | WriteRes.eagain =>
          (msg, left, LoopExit.returned ⟨StatusKind.stOK, StatusCode.suContinue, 0⟩)
      | WriteRes.errorCode e =>
          ({ msg with cursor := 0 }, left,
           LoopExit.returned ⟨StatusKind.stError, StatusCode.errSocketError, e⟩)

/-- The write phase of `Stream::WriteMessage` on the current message:
`leftToBeWritten` is initialised to `msg->GetSize() - msg->GetCursor()` and
the loop is run on the given raw-write results. -/
def WriteMessageLoop (evs : List WriteRes) (msg : Msg) : Msg × Nat × LoopExit :=
  writeLoop evs msg (msg.size - msg.cursor)

/-- Validity of a raw-write script with respect to the bytes still to send:
a successful `::write` returns at least one byte and at most the number of
bytes it was asked to write (`leftToBeWritten`). -/
def validScript : List WriteRes → Nat → Prop
  | [], _ => True
  | WriteRes.wrote k :: rest, left => 0 < k ∧ k ≤ left ∧ validScript rest (left - k)
  | WriteRes.eagain :: _, _ => True
  | WriteRes.errorCode _ :: _, _ => True

instance : ∀ evs left, Decidable (validScript evs left) := by
  intro evs
  induction evs with
  | nil => intro left; exact (inferInstance : Decidable True)
  | cons ev rest ih =>
    intro left
    cases ev with
    | wrote k => exact @instDecidableAnd _ _ _ (@instDecidableAnd _ _ _ (ih _))
    | eagain => exact (inferInstance : Decidable True)
    | errorCode e => exact (inferInstance : Decidable True)

end XrdClient

namespace XrdClientMStream

/-- `kXR_ok` — the success status of a server response header. -/
def kXR_ok : Nat := 0

/-- `kXR_bind` — the request id placed in the bind request.  Its numeric
wire value is irrelevant to the verified claims; only its identity is. -/
def kXR_bind : Nat := 3024

/-- Modelled from the spec: `DFLT_MULTISTREAMSPLITSIZE` is defined in
`XrdClientConst.hh`, which is not under `src/`; the spec gives the default
read-split chunk size as 16 MiB. -/
def DFLT_MULTISTREAMSPLITSIZE : Int := 16 * 1024 * 1024

/-- Two's-complement wraparound of a 32-bit signed value (`kXR_int32`,
`int`): the representative of `x` modulo `2^32` in `[-2^31, 2^31)`. -/
def toInt32 (x : Int) : Int := (x + 2147483648) % 4294967296 - 2147483648

/-- Two's-complement wraparound of a 64-bit signed value (`kXR_int64`):
the representative of `x` modulo `2^64` in `[-2^63, 2^63)`. -/
def toInt64 (x : Int) : Int :=
  (x + 9223372036854775808) % 18446744073709551616 - 9223372036854775808

/-- The `ReadChunk` produced by `XrdClientMStream::SplitReadRequest`:
`(offset, len, streamtosend)` with `offset` a `kXR_int64` value and `len` a
`kXR_int32` value. -/
structure ReadChunk where
  offset : Int
  len : Int
  streamtosend : Nat
deriving DecidableEq, Repr

/-- The split size chosen by `SplitReadRequest`: the default, raised to
`xrdmax( spltsize, len / parallelStreamCount + 1 )` when
`GetParallelStreamCount() > 1`.  The `int` division matches C's for the
nonnegative operands in the source's domain. -/
def effectiveSplitSize (parallelStreamCount : Nat) (len : Int) : Int :=
  if 1 < parallelStreamCount then
    max DFLT_MULTISTREAMSPLITSIZE (len / (parallelStreamCount : Int) + 1)
  else
    DFLT_MULTISTREAMSPLITSIZE

/-- The chunk loop of `SplitReadRequest`
(`for (kXR_int32 pp = 0; pp < len; pp += spltsize)`), carrying the stored
value of the `kXR_int32` loop variable `pp`: the increment `pp += spltsize`
and the subtraction `len - pp` wrap at 32 bits (`toInt32`), and the chunk
offset `pp + offset` is `kXR_int64` arithmetic (`toInt64`) — so for lengths
within `spltsize` of `INT32_MAX` the loop variable wraps negative and the
emitted chunks are garbage, exactly as in the source.  Each chunk carries
the next round-robin stream id (modelled from the spec:
`GetParallelStreamToUse` is a session round-robin counter over the parallel
streams, not under `src/`).  The third argument is structural fuel bounding
the number of unfoldings of the source loop, which need not terminate once
`pp` wraps; `SplitReadRequest` passes `len.toNat`, which covers every
terminating run since each iteration advances `pp` by `spltsize ≥ 1`. -/
def splitLoop (spltsize : Int) (count : Nat) :
    Nat → Int → Int → Int → Nat → List ReadChunk
  | 0, _, _, _, _ => []
  | fuel + 1, offset, len, pp, rr =>
    if pp < len then
      { offset := toInt64 (pp + offset),
        len := min (toInt32 (len - pp)) spltsize,
        streamtosend := rr % count } ::
        splitLoop spltsize count fuel offset len (toInt32 (pp + spltsize))
          (rr + 1)
    else []

/-- `XrdClientMStream::SplitReadRequest( cliconn, offset, len, reqlists )`:
computes the effective split size from the connection's parallel stream
count and runs the chunk loop from `pp = 0`; `rrStart` is the current value
of the session round-robin counter. -/
def SplitReadRequest (parallelStreamCount rrStart : Nat) (offset len : Int) :
    List ReadChunk :=
  let spltsize := effectiveSplitSize parallelStreamCount len
  splitLoop spltsize parallelStreamCount len.toNat offset len 0 rrStart

/-- `coversB o l cs` holds when the chunk ranges of `cs` partition
`[o, o + l)` exactly, in ascending offset order: the first chunk starts at
`o`, every chunk is non-empty and no longer than what remains, and the rest
partitions the remainder.  This rules out gaps, overlaps and disorder. -/
def coversB : Int → Int → List ReadChunk → Bool
  | _, l, [] => l = 0
  | o, l, c :: rest =>
    c.offset = o ∧ 0 < c.len ∧ c.len ≤ l ∧ coversB (o + c.len) (l - c.len) rest

/-- The `ServerResponseHeader` of the wire protocol as the bind code sees
it: the fields are opaque to `BindPendingStream` except `status`; `streamid`
and `dlen` stand for the remaining header contents so that preservation of
the whole header is expressible. -/
structure ServerResponseHeader where
  streamid : Nat
  status : Nat
  dlen : Nat
deriving DecidableEq, Repr

/-- The slice of `XrdClientConn` state used by the bind exchange: the
transient `LastServerResp`, the 16-byte session id obtained at primary
login (`fSessionID`, returned by `GetSessionID`), and the stream id that
`SetSID` writes into a request header. -/
structure XrdClientConn where
  lastServerResp : ServerResponseHeader
  sessionId : Fin 16 → Nat
  sidForRequest : Nat

/-- The bind request assembled by `BindPendingStream`: the header stream id
set by `SetSID`, the request id `kXR_bind`, and the 16-byte `sessid` field
filled by `memcpy( bindFileRequest.bind.sessid, sess.id, sizeof(sess.id) )`. -/
structure BindRequest where
  streamid : Nat
  requestid : Nat
  sessid : Fin 16 → Nat

/-- The outcome of the `SendGenCommand` exchange, supplied as an oracle:
whether the command succeeded, the server response header it leaves in
`LastServerResp`, and the `substreamid` of the `ServerResponseBody_Bind`. -/
structure SendOutcome where
  res : Bool
  respHeader : ServerResponseHeader
  substreamid : Nat

/-- Modelled from the spec: `XrdClientConn::SendGenCommand` (declared in
the header under `src/` but defined elsewhere) performs the exchange and
leaves the server's response header in the connection's transient
`LastServerResp`; its boolean result reports success. -/
def sendGenCommand (conn : XrdClientConn) (o : SendOutcome) :
    XrdClientConn × Bool :=
  ({ conn with lastServerResp := o.respHeader }, o.res)

/-- `XrdClientMStream::BindPendingStream( cliconn, substreamid, newid )`:
saves `LastServerResp`, builds the bind request carrying the session id,
sends it through the pending stream, assigns `newid = bndresp.substreamid`
only when the send succeeded and the response status is `kXR_ok`, restores
`LastServerResp`, and returns the send result.  The returned tuple is
`(res, newid, connection after the call, the request that was sent)`;
`newidIn` is the caller's in-out `newid` argument. -/
def BindPendingStream (conn : XrdClientConn) (newidIn : Int)
    (o : SendOutcome) : Bool × Int × XrdClientConn × BindRequest :=
  let saved := conn.lastServerResp
  let req : BindRequest :=
    { streamid := conn.sidForRequest, requestid := kXR_bind,
      sessid := conn.sessionId }
  let sent := sendGenCommand conn o
  let conn1 := sent.1
  let res := sent.2
  let newid : Int :=
    if res ∧ conn1.lastServerResp.status = kXR_ok then (o.substreamid : Int)
    else newidIn
  let conn2 := { conn1 with lastServerResp := saved }
  (res, newid, conn2, req)

/-- What `XrdClientMStream::AddParallelStream` does after the bind attempt:
either `EstablishPendingParallelStream( newid )` or
`RemoveParallelStream( cliconn, XRDCLI_PSOCKTEMP )`. -/
inductive AddStreamStep where
  | establishPending (newid : Int)
  | removeTemp
deriving DecidableEq, Repr

/-- The bind-and-promote portion of `XrdClientMStream::AddParallelStream`:
`newid` is initialised to `-1`, `BindPendingStream` is called, and when it
returns true and the physical connection is valid the code proceeds to
`EstablishPendingParallelStream( newid )`; otherwise the temporary stream
is removed. -/
def AddParallelStreamBind (conn : XrdClientConn) (o : SendOutcome)
    (phyValid : Bool) : AddStreamStep × XrdClientConn :=
  let r := BindPendingStream conn (-1) o
  if r.1 ∧ phyValid then (AddStreamStep.establishPending r.2.1, r.2.2.1)
  else (AddStreamStep.removeTemp, r.2.2.1)

end XrdClientMStream

namespace XrdClient

/-- A stream in state `Error` with `errorTime = 100` and
`streamErrorWindow = 60`, its reconnection budget exhausted
(`connectionCount = connectionRetry = 5`). -/
def errorStreamSample : Stream :=
  { streamNum := 0, streamStatus := StreamStatus.Error, outQueue := [],
    currentOut := none, connectionCount := 5, connectionRetry := 5,
    connectionWindow := 120, connectionInitTime := 0, streamErrorWindow := 60,
    errorTime := 100, lastStreamError := StatusCode.errConnectionError }

/-- C1: the claim states that in state `Error`, `CheckConnection` rejects
with `stError` exactly when `now - errorTime ≤ streamErrorWindow` and
attempts `Connect()` once the window has elapsed.  The source tests
`now - pErrorTime > pStreamErrorWindow` for the rejection
(`src/XrdClStream.cc:183`), inverting the gate: at `now = 120` (20 s after
the error, inside the 60 s window) the code falls through to `Connect()`,
and at `now = 200` (100 s after the error, past the window) it rejects with
`stError` — the opposite of the claim on both sides. -/
theorem checkConnection_error_window_inverted :
    (CheckConnection 120 errorStreamSample).1 = CheckOutcome.connects ∧
    (CheckConnection 200 errorStreamSample).1 = CheckOutcome.errorRejected := by
  decide

/-- The non-fatal fault status (`stError`, `errConnectionError`) driving a
reconnection chain. -/
def chainFaultStatus : Status :=
  ⟨StatusKind.stError, StatusCode.errConnectionError, 0⟩

/-- A freshly constructed stream (status `Disconnected`, zero counters)
whose `connectionRetry` is the given budget and whose `connectionWindow` is
0 so that every retry reconnects immediately. -/
def chainInit (retry : Nat) : Stream :=
  { streamNum := 0, streamStatus := StreamStatus.Disconnected, outQueue := [],
    currentOut := none, connectionCount := 0, connectionRetry := retry,
    connectionWindow := 0, connectionInitTime := 0, streamErrorWindow := 60,
    errorTime := 0, lastStreamError := StatusCode.suDone }

/-- The fault chain started by a connect attempt: `faultChain retry k` is
the stream state after the initial `Connect()` (which sets
`connectionCount = 1`) followed by `k` non-fatal stream faults, each retry
reconnecting immediately (`connectionWindow = 0`). -/
def faultChain (retry : Nat) : Nat → Stream
  | 0 => Connect 0 (chainInit retry)
  | k + 1 => (HandleStreamFault 0 chainFaultStatus (faultChain retry k)).1

/-- While fewer than `connectionRetry` connection attempts have been made,
each non-fatal fault of the chain reconnects: after `k < retry` faults the
stream is `Connecting` with `connectionCount = k + 1`. -/
theorem faultChain_eq_of_lt (retry : Nat) :
    ∀ k, k < retry →
      faultChain retry k =
        { chainInit retry with streamStatus := StreamStatus.Connecting,
                               connectionCount := k + 1 } := by
  intro k
  induction k with
  | zero => intro _; rfl
  | succ k ih =>
    intro h
    have hk : k < retry := Nat.lt_of_succ_lt h
    show (HandleStreamFault 0 chainFaultStatus (faultChain retry k)).1 = _
    rw [ih hk]
    simp only [HandleStreamFault, Status.IsFatal, chainFaultStatus, Connect,
               chainInit]
    rw [if_pos ?hc]
    case hc =>
      constructor
      · decide
      · exact h
    simp

/-- The `connectionRetry`-th fault of the chain finds
`connectionCount = connectionRetry`, fails the budget test
`pConnectionCount < pConnectionRetry` and puts the stream in `Error`. -/
theorem faultChain_error_at_retry (retry : Nat) (h : 1 ≤ retry) :
    (faultChain retry retry).streamStatus = StreamStatus.Error ∧
    (faultChain retry retry).connectionCount = retry := by
  obtain ⟨r, rfl⟩ : ∃ r, retry = r + 1 := ⟨retry - 1, (Nat.succ_pred_eq_of_pos h).symm⟩
  have hchain := faultChain_eq_of_lt (r + 1) r (Nat.lt_succ_self r)
  have hstep : faultChain (r + 1) (r + 1) =
      (HandleStreamFault 0 chainFaultStatus (faultChain (r + 1) r)).1 := rfl
  rw [hstep, hchain]
  simp only [HandleStreamFault, Status.IsFatal, chainFaultStatus, chainInit,
             FailOutgoingHandlers]
  rw [if_neg ?hc]
  case hc =>
    intro hcond
    exact absurd hcond.2 (by simp)
  simp

/-- C2 counterexample: with `connectionRetry = 3`, in a fault chain started
by a connect attempt (which already sets `connectionCount = 1`), the 3rd
fault — not the 4th — transitions the stream to `Error`; after the 2nd
fault the stream is still `Connecting`, and only 3 connection attempts
(2 reconnects) ever occur, not the claimed `connectionRetry` reconnects. -/
theorem faultChain_retry_three_errors_at_third_fault :
    (faultChain 3 2).streamStatus = StreamStatus.Connecting ∧
    (faultChain 3 3).streamStatus = StreamStatus.Error ∧
    ¬ (faultChain 3 3).streamStatus = StreamStatus.Connecting ∧
    (faultChain 3 3).connectionCount = 3 := by
  decide

/-- C2 (amended): `HandleStreamFault` with a non-fatal status retries — it
sets status `Connecting` and either calls `Connect()` immediately when
`connectionInitTime + connectionWindow` has passed or registers a one-shot
task at that time — exactly while `connectionCount < connectionRetry`.  In
a fault chain started by a connect attempt (which already counts as the
first connection attempt) at most `connectionRetry - 1` reconnects occur,
i.e. `connectionRetry` connection attempts in total, and already the
`connectionRetry`-th fault — not the `(connectionRetry + 1)`-th —
transitions the stream to `Error`. -/
theorem faultChain_reconnect_budget (retry k : Nat) (hr : 1 ≤ retry)
    (hk : k < retry) :
    ((faultChain retry k).streamStatus = StreamStatus.Connecting ∧
     (faultChain retry k).connectionCount = k + 1) ∧
    ((faultChain retry retry).streamStatus = StreamStatus.Error ∧
     (faultChain retry retry).connectionCount = retry) ∧
    (∀ (s : Stream) (st : Status) (now : Int),
      st.IsFatal = false → s.connectionCount < s.connectionRetry →
        (HandleStreamFault now st s).1.streamStatus = StreamStatus.Connecting ∧
        (s.connectionInitTime + s.connectionWindow - now ≤ 0 →
          (HandleStreamFault now st s).1.connectionCount =
            s.connectionCount + 1) ∧
        (0 < s.connectionInitTime + s.connectionWindow - now →
          Effect.taskScheduled (s.connectionInitTime + s.connectionWindow) ∈
            (HandleStreamFault now st s).2)) := by
  refine ⟨?_, faultChain_error_at_retry retry hr, ?_⟩
  · rw [faultChain_eq_of_lt retry k hk]
    exact ⟨rfl, rfl⟩
  · intro s st now hf hc
    simp only [HandleStreamFault]
    rw [if_pos ⟨by simp [hf], hc⟩]
    by_cases hT : s.connectionInitTime + s.connectionWindow - now ≤ 0
    · rw [if_pos hT]
      exact ⟨rfl, fun _ => rfl, fun hlt => absurd hT (by omega)⟩
    · rw [if_neg hT]
      refine ⟨rfl, fun hle => absurd hle hT, fun _ => ?_⟩
      simp

/-- Witness for `faultChain_reconnect_budget` at `retry = 3`, `k = 1`: the
hypotheses hold and after one fault the chain is reconnecting with two
connection attempts made. -/
theorem faultChain_reconnect_budget_witness :
    (1 ≤ 3 ∧ 1 < 3) ∧
    ((faultChain 3 1).streamStatus = StreamStatus.Connecting ∧
     (faultChain 3 1).connectionCount = 2) :=
  ⟨by decide, (faultChain_reconnect_budget 3 1 (by decide) (by decide)).1⟩

end XrdClient

namespace XrdClientMStream

/-- The split loop emits nothing once the loop guard `pp < len` fails,
whatever the fuel. -/
theorem splitLoop_exit (s : Int) (count fuel : Nat) (offset len pp : Int)
    (rr : Nat) (h : ¬ pp < len) :
    splitLoop s count fuel offset len pp rr = [] := by
  cases fuel with
  | zero => rfl
  | succ f =>
    simp only [splitLoop]
    rw [if_neg h]

/-- `toInt32` is the identity on values already in `[-2^31, 2^31)`. -/
theorem toInt32_eq_self (x : Int) (h1 : -2147483648 ≤ x)
    (h2 : x < 2147483648) : toInt32 x = x := by
  unfold toInt32
  omega

/-- `toInt64` is the identity on values already in `[-2^63, 2^63)`. -/
theorem toInt64_eq_self (x : Int) (h1 : -9223372036854775808 ≤ x)
    (h2 : x < 9223372036854775808) : toInt64 x = x := by
  unfold toInt64
  omega

/-- The effective split size is always positive. -/
theorem effectiveSplitSize_pos (cnt : Nat) (len : Int) :
    0 < effectiveSplitSize cnt len := by
  unfold effectiveSplitSize DFLT_MULTISTREAMSPLITSIZE
  split
  · exact lt_of_lt_of_le (by norm_num) (le_max_left _ _)
  · norm_num

/-- With a positive split size, when the split size and length are small
enough that the int32 loop variable never wraps
(`len + s ≤ 2^31`) and the chunk offsets stay in int64 range, the split
loop starting at loop position `pp` emits chunks that partition
`[offset + pp, offset + len)` exactly, each chunk non-empty and no longer
than the split size. -/
theorem splitLoop_covers (s : Int) (count : Nat) (hs : 0 < s)
    (offset len : Int) (h32 : len + s ≤ 2147483648)
    (ho1 : -9223372036854775808 ≤ offset)
    (ho2 : offset + len ≤ 9223372036854775808) :
    ∀ fuel (pp : Int) (rr : Nat), 0 ≤ pp → pp ≤ len →
      (len - pp).toNat ≤ fuel →
      coversB (pp + offset) (len - pp)
        (splitLoop s count fuel offset len pp rr) = true ∧
      ∀ c ∈ splitLoop s count fuel offset len pp rr,
        0 < c.len ∧ c.len ≤ s := by
  intro fuel
  induction fuel with
  | zero =>
    intro pp rr hpp0 hpplen hfuel
    have hz : len - pp = 0 := by omega
    constructor
    · rw [hz]
      rfl
    · intro c hc
      exact absurd hc (List.not_mem_nil c)
  | succ fuel ih =>
    intro pp rr hpp0 hpplen hfuel
    by_cases hguard : pp < len
    · simp only [splitLoop]
      rw [if_pos hguard]
      have hsub32 : toInt32 (len - pp) = len - pp := by
        unfold toInt32
        omega
      have hoff64 : toInt64 (pp + offset) = pp + offset := by
        unfold toInt64
        omega
      have hinc32 : toInt32 (pp + s) = pp + s := by
        unfold toInt32
        omega
      rw [hsub32, hoff64, hinc32]
      by_cases hrem : len - pp ≤ s
      · have hmin : min (len - pp) s = len - pp := min_eq_left hrem
        have hrest : splitLoop s count fuel offset len (pp + s) (rr + 1) = [] :=
          splitLoop_exit s count fuel offset len (pp + s) (rr + 1) (by omega)
        rw [hrest]
        constructor
        · simp only [coversB, hmin, decide_eq_true_eq]
          refine ⟨trivial, by omega, by omega, ?_⟩
          show ((len - pp) - (len - pp) = 0)
          omega
        · intro c hc
          rcases List.mem_cons.mp hc with hh | ht
          · subst hh
            constructor
            · show 0 < min (len - pp) s
              omega
            · show min (len - pp) s ≤ s
              omega
          · exact absurd ht (List.not_mem_nil c)
      · have hlt : s < len - pp := by omega
        have hmin : min (len - pp) s = s := min_eq_right (by omega)
        obtain ⟨hcov, hmem⟩ := ih (pp + s) (rr + 1) (by omega) (by omega)
          (by omega)
        constructor
        · simp only [coversB, hmin, decide_eq_true_eq]
          refine ⟨trivial, by omega, by omega, ?_⟩
          rw [show pp + offset + s = (pp + s) + offset from by ring,
              show len - pp - s = len - (pp + s) from by ring]
          exact hcov
        · intro c hc
          rcases List.mem_cons.mp hc with hh | ht
          · subst hh
            constructor
            · show 0 < min (len - pp) s
              omega
            · show min (len - pp) s ≤ s
              omega
          · exact hmem c ht
    · rw [splitLoop_exit s count (fuel + 1) offset len pp rr hguard]
      constructor
      · rw [show len - pp = 0 from by omega]
        rfl
      · intro c hc
        exact absurd hc (List.not_mem_nil c)

/-- C3 counterexample: `SplitReadRequest(offset = 0, length = 100 MiB)` with
4 parallel streams produces 4 chunks, not the claimed 7: the split size is
raised to `max(16 MiB, 100 MiB / 4 + 1) = 26214401`, and
`ceil(104857600 / 26214401) = 4`. -/
theorem splitReadRequest_100MiB_chunk_count :
    (SplitReadRequest 4 0 0 104857600).length = 4 ∧
    ¬ (SplitReadRequest 4 0 0 104857600).length = 7 := by
  decide

/-- C3 (amended): `SplitReadRequest(offset = 0, length = 100 MiB)` with 4
parallel streams and the default split size of 16 MiB uses split size
`max(16 MiB, 100 MiB / 4 + 1) = 26214401` and produces 4 chunks —
`[0, 26214401)`, `[26214401, 52428802)`, `[52428802, 78643203)` and
`[78643203, 104857600)` — covering `[0, 100 MiB)` exactly, the round-robin
selector tagging them with stream ids 0, 1, 2, 3. -/
theorem splitReadRequest_100MiB_chunks :
    effectiveSplitSize 4 104857600 = 26214401 ∧
    SplitReadRequest 4 0 0 104857600 =
      [⟨0, 26214401, 0⟩, ⟨26214401, 26214401, 1⟩,
       ⟨52428802, 26214401, 2⟩, ⟨78643203, 26214397, 3⟩] ∧
    coversB 0 104857600 (SplitReadRequest 4 0 0 104857600) = true := by
  decide

/-- C4 counterexample: the partition property fails at valid inputs where
the source loop arithmetic overflows.  With 2 parallel streams and
`length = INT32_MAX = 2147483647` the split size is
`max(16 MiB, 2147483647 / 2 + 1) = 2^30`; after two good chunks the
`kXR_int32` increment `pp += spltsize` computes `2^31`, which wraps to
`-2147483648 < len`, so the loop emits the garbage chunk
`(offset = -2147483648, len = -1)` — and cycles forever — instead of
partitioning `[0, 2147483647)`.  Likewise a chunk offset wraps in int64:
at `offset = INT64_MAX = 2^63 - 1` with `length = 2 * 16 MiB` the second
chunk's `pp + offset` wraps to `-9223372036837998593`, so the chunks do not
partition `[offset, offset + length)` either. -/
theorem splitReadRequest_int32_wrap_garbage :
    (SplitReadRequest 2 0 0 2147483647).get? 2 =
      some { offset := -2147483648, len := -1, streamtosend := 0 } ∧
    coversB 0 2147483647 (SplitReadRequest 2 0 0 2147483647) = false ∧
    (SplitReadRequest 1 0 9223372036854775807 33554432).get? 1 =
      some { offset := -9223372036837998593, len := 16777216,
             streamtosend := 0 } ∧
    coversB 9223372036854775807 33554432
      (SplitReadRequest 1 0 9223372036854775807 33554432) = false := by
  decide

/-- C4 (amended): for every offset and positive length such that the loop
arithmetic stays in range — `length + effectiveSplitSize ≤ 2^31`, so the
`kXR_int32` loop variable `pp += spltsize` never overflows, and the chunk
offsets `pp + offset` stay within int64 — `SplitReadRequest` returns chunks
whose ranges partition `[offset, offset + length)` exactly — no gaps, no
overlaps, in ascending offset order (`coversB`) — each chunk non-empty and
of length at most the effective split size, the effective split size being
`DFLT_MULTISTREAMSPLITSIZE` for at most one parallel stream and
`max(DFLT_MULTISTREAMSPLITSIZE, length / parallelStreamCount + 1)`
otherwise. -/
theorem splitReadRequest_partitions (cnt rr : Nat) (offset len : Int)
    (hlen : 0 < len)
    (h32 : len + effectiveSplitSize cnt len ≤ 2147483648)
    (ho1 : -9223372036854775808 ≤ offset)
    (ho2 : offset + len ≤ 9223372036854775808) :
    coversB offset len (SplitReadRequest cnt rr offset len) = true ∧
    ∀ c ∈ SplitReadRequest cnt rr offset len,
      0 < c.len ∧ c.len ≤ effectiveSplitSize cnt len := by
  have h := splitLoop_covers (effectiveSplitSize cnt len) cnt
    (effectiveSplitSize_pos cnt len) offset len h32 ho1 ho2 len.toNat 0 rr
    (le_refl 0) (by omega) (by omega)
  constructor
  · have hc := h.1
    rw [zero_add, sub_zero] at hc
    exact hc
  · intro c hc
    exact h.2 c hc

/-- Witness for `splitReadRequest_partitions` at
`(cnt, rr, offset, len) = (4, 0, 0, 100)`: the range hypotheses hold and
the 100-byte read splits into a partition. -/
theorem splitReadRequest_partitions_witness :
    (0 < (100 : Int) ∧
     (100 : Int) + effectiveSplitSize 4 100 ≤ 2147483648 ∧
     -9223372036854775808 ≤ (0 : Int) ∧
     (0 : Int) + 100 ≤ 9223372036854775808) ∧
    coversB 0 100 (SplitReadRequest 4 0 0 100) = true :=
  ⟨by decide,
   (splitReadRequest_partitions 4 0 0 100 (by decide) (by decide) (by decide)
      (by decide)).1⟩

end XrdClientMStream

namespace XrdClientMStream

/-- C5: every bind request built by `BindPendingStream` carries in its
`sessid` field the exact 16-byte session id obtained at primary login
(`memcpy` of `sess.id` returned by `GetSessionID`), and the connection's
externally visible `LastServerResp` after `BindPendingStream` returns
equals its value before the call — it is saved into `LastServerResptmp`
before the exchange and restored unconditionally after. -/
theorem bindPendingStream_sessid_and_resp (conn : XrdClientConn)
    (newidIn : Int) (o : SendOutcome) :
    (BindPendingStream conn newidIn o).2.2.2.sessid = conn.sessionId ∧
    (BindPendingStream conn newidIn o).2.2.2.requestid = kXR_bind ∧
    (BindPendingStream conn newidIn o).2.2.1.lastServerResp =
      conn.lastServerResp := by
  exact ⟨rfl, rfl, rfl⟩

/-- C9: `BindPendingStream` returns the raw `SendGenCommand` result and
assigns `newid = bndresp.substreamid` only when the send succeeded and the
response status is `kXR_ok`; hence a successful send with a non-`kXR_ok`
status returns `true` with `newid` unchanged, and `AddParallelStream` —
which initialises `newid` to `-1` — proceeds to
`EstablishPendingParallelStream` with id `-1` instead of removing the
temporary stream. -/
theorem bindPendingStream_ignores_bad_status (conn : XrdClientConn)
    (newidIn : Int) (o : SendOutcome) :
    ((BindPendingStream conn newidIn o).1 = o.res) ∧
    ((BindPendingStream conn newidIn o).2.1 =
      if o.res ∧ o.respHeader.status = kXR_ok then (o.substreamid : Int)
      else newidIn) ∧
    (o.res = true → ¬ o.respHeader.status = kXR_ok →
      (AddParallelStreamBind conn o true).1 =
        AddStreamStep.establishPending (-1)) := by
  refine ⟨rfl, rfl, ?_⟩
  intro hres hstat
  have hb1 : (BindPendingStream conn (-1) o).1 = o.res := rfl
  have hnew : (BindPendingStream conn (-1) o).2.1 = -1 := by
    show (if o.res ∧ o.respHeader.status = kXR_ok
          then ((o.substreamid : Nat) : Int) else (-1)) = -1
    rw [if_neg]
    intro hc
    exact hstat hc.2
  simp only [AddParallelStreamBind]
  rw [hb1, hres, if_pos ⟨rfl, trivial⟩]
  show AddStreamStep.establishPending (BindPendingStream conn (-1) o).2.1 =
    AddStreamStep.establishPending (-1)
  rw [hnew]

/-- A connection with a distinctive `LastServerResp` and session id. -/
def bindConnSample : XrdClientConn :=
  { lastServerResp := ⟨7, 0, 0⟩, sessionId := fun i => (i : Nat) + 1,
    sidForRequest := 5 }

/-- A `SendGenCommand` outcome whose send succeeded but whose response
status is not `kXR_ok`. -/
def badBindOutcome : SendOutcome :=
  { res := true, respHeader := ⟨7, 4017, 0⟩, substreamid := 3 }

/-- Witness for `bindPendingStream_ignores_bad_status` at a successful send
with status 4017 ≠ `kXR_ok`. -/
theorem bindPendingStream_ignores_bad_status_witness :
    (badBindOutcome.res = true ∧
     ¬ badBindOutcome.respHeader.status = kXR_ok) ∧
    (AddParallelStreamBind bindConnSample badBindOutcome true).1 =
      AddStreamStep.establishPending (-1) :=
  ⟨⟨rfl, by decide⟩,
   (bindPendingStream_ignores_bad_status bindConnSample 0
      badBindOutcome).2.2 rfl (by decide)⟩

end XrdClientMStream

namespace XrdClient

/-- The aging loop of `Stream::Tick` keeps exactly the slots that are the
current transmission or not yet expired, and emits one timeout handler
invocation per removed slot that has a handler, in queue order. -/
theorem tickOutQueue_spec (now : Int) (cur : Option Nat) (q : List OutSlot) :
    tickOutQueue now cur q =
      (q.filter (fun sl => decide ¬(some sl.id ≠ cur ∧ sl.expires ≤ now)),
       q.filterMap (fun sl =>
         if (some sl.id ≠ cur ∧ sl.expires ≤ now) ∧ sl.hasHandler
         then some (Effect.handlerCalled sl.id timeoutStatus) else none)) := by
  induction q with
  | nil => rfl
  | cons sl rest ih =>
    simp only [tickOutQueue, ih, List.filter_cons, List.filterMap_cons]
    by_cases hc : some sl.id ≠ cur ∧ sl.expires ≤ now
    · rw [if_pos hc]
      by_cases hh : sl.hasHandler
      · simp [hc, hh]
      · simp [hc, hh]
    · rw [if_neg hc]
      simp [hc]

/-- C6: `Tick(now)` removes exactly the outbound slots whose
`expires ≤ now` and that are not the current slot — a slot equal to
`currentOut` is never removed even if expired — invoking each removed
slot's handler with `Status( stError, errSocketTimeout )`; nothing of the
stream but the outbound queue changes, and on stream 0 `Tick` first
forwards `now` to the incoming dispatch queue. -/
theorem tick_ages_expired_noncurrent (now : Int) (s : Stream) :
    (Tick now s).1.outQueue =
      s.outQueue.filter
        (fun sl => decide ¬(some sl.id ≠ s.currentOut ∧ sl.expires ≤ now)) ∧
    (Tick now s).1 = { s with outQueue := (Tick now s).1.outQueue } ∧
    (Tick now s).2 =
      (if s.streamNum = 0 then [Effect.incomingTimeout now] else []) ++
      s.outQueue.filterMap (fun sl =>
        if (some sl.id ≠ s.currentOut ∧ sl.expires ≤ now) ∧ sl.hasHandler
        then some (Effect.handlerCalled sl.id timeoutStatus) else none) := by
  simp [Tick, tickOutQueue_spec]

end XrdClient

namespace XrdClient

/-- C8: `Disconnect(force = false)` with a non-empty user outbound queue is
a no-op — the state, socket, queue and handlers are all unchanged and no
effect is performed.  `Disconnect(force = true)`, or `Disconnect` with an
empty queue, removes the socket from the poller and closes it, fails the
incoming handlers on stream 0, invokes every queued outbound handler with
`Status( stError, errStreamDisconnect )`, sets the stream status to
`Disconnected` and notifies the transport. -/
theorem disconnect_pending_and_forced (s : Stream) (force : Bool) :
    (force = false → ¬ s.outQueue.isEmpty = true → Disconnect force s = (s, [])) ∧
    (force = true ∨ s.outQueue.isEmpty = true →
      (Disconnect force s).1.streamStatus = StreamStatus.Disconnected ∧
      (Disconnect force s).1.outQueue = [] ∧
      (Disconnect force s).2 =
        [Effect.pollerRemoved, Effect.socketClosed] ++
        (if s.streamNum = 0 then [Effect.incomingFailAll disconnectStatus]
         else []) ++
        s.outQueue.filterMap (fun sl =>
          if sl.hasHandler
          then some (Effect.handlerCalled sl.id disconnectStatus) else none) ++
        [Effect.transportDisconnect]) := by
  constructor
  · intro hf hq
    simp only [Disconnect]
    rw [if_pos ⟨by simp [hf], hq⟩]
  · intro hor
    simp only [Disconnect, FailOutgoingHandlers]
    rw [if_neg ?hn]
    case hn =>
      intro hc
      rcases hor with hf | hq
      · exact hc.1 (by simp [hf])
      · exact hc.2 hq
    exact ⟨rfl, rfl, rfl⟩

/-- A `Connected` stream whose user queue holds two slots with handlers. -/
def queuedStreamSample : Stream :=
  { streamNum := 0, streamStatus := StreamStatus.Connected,
    outQueue := [⟨1, true, 50⟩, ⟨2, true, 60⟩], currentOut := none,
    connectionCount := 1, connectionRetry := 3, connectionWindow := 30,
    connectionInitTime := 0, streamErrorWindow := 60, errorTime := 0,
    lastStreamError := StatusCode.suDone }

/-- Witness for `disconnect_pending_and_forced` on a stream with two queued
slots: the unforced call is a no-op, the forced call disconnects. -/
theorem disconnect_pending_and_forced_witness :
    (false = false ∧ ¬ queuedStreamSample.outQueue.isEmpty = true ∧
     (true = true ∨ queuedStreamSample.outQueue.isEmpty = true)) ∧
    Disconnect false queuedStreamSample = (queuedStreamSample, []) ∧
    (Disconnect true queuedStreamSample).1.streamStatus =
      StreamStatus.Disconnected :=
  ⟨by decide,
   (disconnect_pending_and_forced queuedStreamSample false).1 rfl (by decide),
   ((disconnect_pending_and_forced queuedStreamSample true).2 (Or.inl rfl)).1⟩

/-- Whether an effect is an outbound-handler invocation. -/
def isHandlerCalled : Effect → Bool
  | Effect.handlerCalled _ _ => true
  | _ => false

/-- C10: when `HandleStreamFault` takes the retry path (non-fatal status
and `connectionCount < connectionRetry`), the user outbound queue is left
completely intact and no outbound handler is invoked — queued user messages
survive the reconnection.  Outbound handlers are failed and the queue
cleared exactly on the terminal branch that sets status `Error`. -/
theorem handleStreamFault_preserves_out_queue (now : Int) (st : Status)
    (s : Stream) :
    (st.IsFatal = false → s.connectionCount < s.connectionRetry →
      (HandleStreamFault now st s).1.outQueue = s.outQueue ∧
      (HandleStreamFault now st s).2.all (fun e => !isHandlerCalled e) = true) ∧
    (st.IsFatal = true ∨ ¬ s.connectionCount < s.connectionRetry →
      (HandleStreamFault now st s).1.outQueue = [] ∧
      (HandleStreamFault now st s).2 =
        [Effect.pollerRemoved, Effect.socketClosed,
         Effect.transportDisconnect] ++
        (if s.streamNum = 0 then [Effect.incomingFailAll st] else []) ++
        s.outQueue.filterMap (fun sl =>
          if sl.hasHandler then some (Effect.handlerCalled sl.id st)
          else none)) := by
  constructor
  · intro hf hc
    simp only [HandleStreamFault]
    rw [if_pos ⟨by simp [hf], hc⟩]
    by_cases hT : s.connectionInitTime + s.connectionWindow - now ≤ 0
    · rw [if_pos hT]
      exact ⟨rfl, rfl⟩
    · rw [if_neg hT]
      exact ⟨rfl, rfl⟩
  · intro hor
    simp only [HandleStreamFault, FailOutgoingHandlers]
    rw [if_neg ?hn]
    case hn =>
      intro hc
      rcases hor with hf | hcnt
      · exact hc.1 (by simp [hf])
      · exact hcnt hc.2
    exact ⟨rfl, rfl⟩

/-- Witness for `handleStreamFault_preserves_out_queue` on the retry path:
a non-fatal fault on a stream with two queued slots and budget left keeps
both slots and invokes no handler. -/
theorem handleStreamFault_preserves_out_queue_witness :
    (chainFaultStatus.IsFatal = false ∧
     queuedStreamSample.connectionCount < queuedStreamSample.connectionRetry) ∧
    ((HandleStreamFault 100 chainFaultStatus queuedStreamSample).1.outQueue =
       queuedStreamSample.outQueue ∧
     (HandleStreamFault 100 chainFaultStatus queuedStreamSample).2.all
       (fun e => !isHandlerCalled e) = true) :=
  ⟨by decide,
   (handleStreamFault_preserves_out_queue 100 chainFaultStatus
      queuedStreamSample).1 (by decide) (by decide)⟩

end XrdClient

namespace XrdClient

/-- Whether a loop exit is the socket-error return
`Status( stError, errSocketError, errno )` of `Stream::WriteMessage`. -/
def isSocketErrorExit : LoopExit → Bool
  | LoopExit.returned st =>
      st.kind = StatusKind.stError ∧ st.code = StatusCode.errSocketError
  | _ => false

/-- With nothing left to send the loop exits as completed at once. -/
theorem writeLoop_unfold_zero (evs : List WriteRes) (msg : Msg) :
    writeLoop evs msg 0 = (msg, 0, LoopExit.completed) := by
  cases evs <;> rfl

/-- With bytes left but no more modelled raw-write results the loop is
starved. -/
theorem writeLoop_unfold_nil (msg : Msg) (left : Nat) (h : ¬ left = 0) :
    writeLoop [] msg left = (msg, left, LoopExit.starved) := by
  show (if left = 0 then ((msg, left, LoopExit.completed) : Msg × Nat × LoopExit)
        else (msg, left, LoopExit.starved)) = (msg, left, LoopExit.starved)
  rw [if_neg h]

/-- A successful raw write of `k` bytes advances the cursor by `k` and
decreases `leftToBeWritten` by `k`. -/
theorem writeLoop_unfold_wrote (k : Nat) (rest : List WriteRes) (msg : Msg)
    (left : Nat) (h : ¬ left = 0) :
    writeLoop (WriteRes.wrote k :: rest) msg left =
      writeLoop rest { msg with cursor := msg.cursor + k } (left - k) := by
  show (if left = 0 then ((msg, left, LoopExit.completed) : Msg × Nat × LoopExit)
        else writeLoop rest { msg with cursor := msg.cursor + k } (left - k)) =
      writeLoop rest { msg with cursor := msg.cursor + k } (left - k)
  rw [if_neg h]

/-- A raw write failing with `EAGAIN` / `EWOULDBLOCK` returns
`Status( stOK, suContinue )` leaving the cursor in place. -/
theorem writeLoop_unfold_eagain (rest : List WriteRes) (msg : Msg)
    (left : Nat) (h : ¬ left = 0) :
    writeLoop (WriteRes.eagain :: rest) msg left =
      (msg, left,
       LoopExit.returned ⟨StatusKind.stOK, StatusCode.suContinue, 0⟩) := by
  show (if left = 0 then ((msg, left, LoopExit.completed) : Msg × Nat × LoopExit)
        else (msg, left,
          LoopExit.returned ⟨StatusKind.stOK, StatusCode.suContinue, 0⟩)) = _
  rw [if_neg h]

/-- Any other raw-write error resets the cursor to 0 and returns
`Status( stError, errSocketError, errno )`. -/
theorem writeLoop_unfold_error (e : Int) (rest : List WriteRes) (msg : Msg)
    (left : Nat) (h : ¬ left = 0) :
    writeLoop (WriteRes.errorCode e :: rest) msg left =
      ({ msg with cursor := 0 }, left,
       LoopExit.returned ⟨StatusKind.stError, StatusCode.errSocketError, e⟩) := by
  show (if left = 0 then ((msg, left, LoopExit.completed) : Msg × Nat × LoopExit)
        else ({ msg with cursor := 0 }, left,
          LoopExit.returned ⟨StatusKind.stError, StatusCode.errSocketError, e⟩)) = _
  rw [if_neg h]

/-- Invariants of the write loop under any valid raw-write script: the size
never changes; on completion the cursor equals the size; except on the
socket-error return, `cursor + leftToBeWritten = size` at every exit, so
`size - cursor` always equals the bytes still to send; the socket-error
return resets the cursor to 0; and every early return is either the
`(stOK, suContinue)` would-block status or a
`(stError, errSocketError, errno)` status. -/
theorem writeLoop_integrity :
    ∀ (evs : List WriteRes) (msg : Msg) (left : Nat),
      msg.cursor + left = msg.size → validScript evs left →
      (writeLoop evs msg left).1.size = msg.size ∧
      ((writeLoop evs msg left).2.2 = LoopExit.completed →
        (writeLoop evs msg left).1.cursor = msg.size ∧
        (writeLoop evs msg left).2.1 = 0) ∧
      (isSocketErrorExit (writeLoop evs msg left).2.2 = false →
        (writeLoop evs msg left).1.cursor + (writeLoop evs msg left).2.1 =
          msg.size) ∧
      (isSocketErrorExit (writeLoop evs msg left).2.2 = true →
        (writeLoop evs msg left).1.cursor = 0) ∧
      ((writeLoop evs msg left).2.2 = LoopExit.completed ∨
       (writeLoop evs msg left).2.2 =
         LoopExit.returned ⟨StatusKind.stOK, StatusCode.suContinue, 0⟩ ∨
       (writeLoop evs msg left).2.2 = LoopExit.starved ∨
       ∃ e, (writeLoop evs msg left).2.2 =
         LoopExit.returned ⟨StatusKind.stError, StatusCode.errSocketError, e⟩) := by
  intro evs
  induction evs with
  | nil =>
    intro msg left hinv hval
    by_cases h0 : left = 0
    · subst h0
      rw [writeLoop_unfold_zero]
      refine ⟨rfl, ?_, ?_, ?_, Or.inl rfl⟩
      · intro _
        exact ⟨by show msg.cursor = msg.size; omega, rfl⟩
      · intro _
        show msg.cursor + 0 = msg.size
        omega
      · intro hbad
        simp [isSocketErrorExit] at hbad
    · rw [writeLoop_unfold_nil msg left h0]
      refine ⟨rfl, ?_, fun _ => hinv, ?_, Or.inr (Or.inr (Or.inl rfl))⟩
      · intro hc
        simp at hc
      · intro hbad
        simp [isSocketErrorExit] at hbad
  | cons ev rest ih =>
    intro msg left hinv hval
    by_cases h0 : left = 0
    · subst h0
      rw [writeLoop_unfold_zero]
      refine ⟨rfl, ?_, ?_, ?_, Or.inl rfl⟩
      · intro _
        exact ⟨by show msg.cursor = msg.size; omega, rfl⟩
      · intro _
        show msg.cursor + 0 = msg.size
        omega
      · intro hbad
        simp [isSocketErrorExit] at hbad
    · cases ev with
      | wrote k =>
        obtain ⟨hk0, hkle, hval'⟩ := hval
        have hinv' : ({ msg with cursor := msg.cursor + k } : Msg).cursor +
            (left - k) =
            ({ msg with cursor := msg.cursor + k } : Msg).size := by
          show msg.cursor + k + (left - k) = msg.size
          omega
        rw [writeLoop_unfold_wrote k rest msg left h0]
        have hres := ih { msg with cursor := msg.cursor + k } (left - k)
          hinv' hval'
        refine ⟨hres.1, ?_, ?_, hres.2.2.2.1, hres.2.2.2.2⟩
        · intro hc
          obtain ⟨ha, hb⟩ := hres.2.1 hc
          exact ⟨by simpa using ha, hb⟩
        · intro hne
          have hq := hres.2.2.1 hne
          simpa using hq
      | eagain =>
        rw [writeLoop_unfold_eagain rest msg left h0]
        refine ⟨rfl, ?_, fun _ => hinv, ?_, Or.inr (Or.inl rfl)⟩
        · intro hc
          simp at hc
        · intro hbad
          simp [isSocketErrorExit] at hbad
      | errorCode e =>
        rw [writeLoop_unfold_error e rest msg left h0]
        refine ⟨rfl, ?_, ?_, fun _ => rfl, Or.inr (Or.inr (Or.inr ⟨e, rfl⟩))⟩
        · intro hc
          simp at hc
        · intro hbad
          simp [isSocketErrorExit] at hbad

/-- C7: in `Stream::WriteMessage`, with `leftToBeWritten` initialised to
`GetSize() - GetCursor()`, each successful raw write of `k` bytes advances
the cursor by exactly `k` so that `size - cursor` always equals the bytes
still to send; a write failing with `EAGAIN`/`EWOULDBLOCK` returns
`(stOK, suContinue)` leaving the cursor at its partial position, and any
other write error resets the cursor to 0 and returns
`(stError, errSocketError, errno)`. -/
theorem writeMessage_cursor_integrity (evs : List WriteRes) (msg : Msg)
    (hcur : msg.cursor ≤ msg.size)
    (hval : validScript evs (msg.size - msg.cursor)) :
    (WriteMessageLoop evs msg).1.size = msg.size ∧
    ((WriteMessageLoop evs msg).2.2 = LoopExit.completed →
      (WriteMessageLoop evs msg).1.cursor = msg.size ∧
      (WriteMessageLoop evs msg).2.1 = 0) ∧
    (isSocketErrorExit (WriteMessageLoop evs msg).2.2 = false →
      (WriteMessageLoop evs msg).1.cursor + (WriteMessageLoop evs msg).2.1 =
        msg.size) ∧
    (isSocketErrorExit (WriteMessageLoop evs msg).2.2 = true →
      (WriteMessageLoop evs msg).1.cursor = 0) ∧
    ((WriteMessageLoop evs msg).2.2 = LoopExit.completed ∨
     (WriteMessageLoop evs msg).2.2 =
       LoopExit.returned ⟨StatusKind.stOK, StatusCode.suContinue, 0⟩ ∨
     (WriteMessageLoop evs msg).2.2 = LoopExit.starved ∨
     ∃ e, (WriteMessageLoop evs msg).2.2 =
       LoopExit.returned ⟨StatusKind.stError, StatusCode.errSocketError, e⟩) :=
  writeLoop_integrity evs msg (msg.size - msg.cursor) (by omega) hval

/-- The 4096-byte message of the partial-write scenario, cursor at 0. -/
def sampleMsg : Msg := ⟨4096, 0⟩

/-- A first write of 1500 bytes followed by a would-block failure. -/
def sampleScript : List WriteRes := [WriteRes.wrote 1500, WriteRes.eagain]

/-- Witness for `writeMessage_cursor_integrity` on the partial-write
scenario: after writing 1500 of 4096 bytes and hitting `EAGAIN`, the cursor
plus the bytes still to send equals the message size. -/
theorem writeMessage_cursor_integrity_witness :
    (sampleMsg.cursor ≤ sampleMsg.size ∧
     validScript sampleScript (sampleMsg.size - sampleMsg.cursor)) ∧
    (WriteMessageLoop sampleScript sampleMsg).1.cursor +
      (WriteMessageLoop sampleScript sampleMsg).2.1 = sampleMsg.size :=
  ⟨⟨by decide, by decide⟩,
   (writeMessage_cursor_integrity sampleScript sampleMsg (by decide)
      (by decide)).2.2.1 (by decide)⟩

end XrdClient
